import Mathlib

/-!
# Container resolution through the CRI (`client_alphav2_linux.go`)

A shallow embedding of `pkg/platforms/kubernetes/client_alphav2_linux.go`:
`GetContainerInfoKube`, `getNS` and `getEnv`, together with the pieces of the Go
standard library they lean on (`bufio.Scanner` with the default line splitter,
`strings.IndexByte`, string slicing, `regexp` for the one pattern the file compiles,
`strconv.ParseInt`).

Go strings are byte sequences, so text is `List Byte`.  Calls that leave the process
(the CRI runtime service, the PID locator) are oracles supplied by the caller; every
function returns the ordered list of the calls and log lines it made next to its result,
so that "stage X is never reached" is a statement about that list.
-/

namespace Squash

/-! ## Bytes, text, errors -/

abbrev Byte := UInt8

/-- The bytes of an ASCII string literal. -/
def ascii (s : String) : List Byte := s.toList.map (fun c => UInt8.ofNat c.toNat)

/-- Go `time.Duration`, in nanoseconds. -/
abbrev Duration := Nat

/-- Go `time.Second`. -/
def Second : Duration := 1000000000

/-- The constant `defaultTimeout = 10 * time.Second` of the source. -/
def defaultTimeout : Duration := 10 * Second

/-- The `Err` field of a `*strconv.NumError`. -/
inductive NumErrKind
  | ErrSyntax
  | ErrRange
  deriving DecidableEq, Repr

/-- Go `error` values that can reach the code under study. -/
inductive GoError
  /-- The value of `errors.New(text)`. -/
  | errorsNew (text : String)
  /-- An error value handed back by the CRI runtime client or the PID locator. -/
  | external (code : Nat)
  /-- A `*strconv.NumError` with fields `Func`, `Num`, `Err`. -/
  | numError (func : String) (num : List Byte) (kind : NumErrKind)
  /-- The sentinel `bufio.ErrTooLong`. -/
  | ErrTooLong
  deriving DecidableEq, Repr

/-- How a Go call ends: it returns a value, or a runtime panic unwinds it. -/
inductive Outcome (α : Type)
  | returned (v : α)
  | panicked (msg : String)
  deriving DecidableEq, Repr

/-! ## `map[string]string` -/

/-- A Go `map[string]string` as an association list with unique keys. -/
abbrev GoMap := List (List Byte × List Byte)

/-- The read `m[k]` with its presence flag. -/
def GoMap.lookup : GoMap → List Byte → Option (List Byte)
  | [], _ => none
  | (k, v) :: rest, key => if k = key then some v else GoMap.lookup rest key

/-- The assignment `m[k] = v`: overwrites the entry of `k` when there is one. -/
def GoMap.assign : GoMap → List Byte → List Byte → GoMap
  | [], key, val => [(key, val)]
  | (k, v) :: rest, key, val =>
    if k = key then (k, val) :: rest else (k, v) :: GoMap.assign rest key val

/-! ## Standard library: `strings.IndexByte`, slicing -/

/-- Go `strings.IndexByte(s, c)`: index of the first `c` in `s`, or `-1`. -/
def IndexByte : List Byte → Byte → Int
  | [], _ => -1
  | b :: rest, c =>
    if b = c then 0
    else
      let i := IndexByte rest c
      if i = -1 then -1 else i + 1

/-- The slice expression `s[:hi]`; `none` is the slice-bounds runtime panic. -/
def sliceTo (s : List Byte) (hi : Int) : Option (List Byte) :=
  if hi < 0 ∨ (s.length : Int) < hi then none else some (s.take hi.toNat)

/-- The slice expression `s[lo:]`; `none` is the slice-bounds runtime panic. -/
def sliceFrom (s : List Byte) (lo : Int) : Option (List Byte) :=
  if lo < 0 ∨ (s.length : Int) < lo then none else some (s.drop lo.toNat)

/-! ## Standard library: `bufio.Scanner` with `bufio.ScanLines` -/

/-- The constant `bufio.MaxScanTokenSize`. -/
def MaxScanTokenSize : Nat := 64 * 1024

/-- The helper `dropCR` of `bufio`: drops one trailing carriage return. -/
def dropCR (data : List Byte) : List Byte :=
  if data.getLast? = some 13 then data.dropLast else data

/-- The run of `for scanner.Scan()` over a `bytes.Reader`: the tokens `scanner.Text()`
yields, in order, and the value of `scanner.Err()` afterwards.  `cur` holds, reversed,
the bytes of the line being read.  A token ends at a line feed; when `maxTok` bytes have
been buffered without one the scanner gives up with `ErrTooLong`; at the end of the input
a non-empty unterminated line is the last token. -/
def scanFrom (maxTok : Nat) : List Byte → List Byte → List (List Byte) × Option GoError
  | [], cur => (if cur = [] then [] else [dropCR cur.reverse], none)
  | b :: rest, cur =>
    if b = 10 then
      let r := scanFrom maxTok rest []
      (dropCR cur.reverse :: r.1, r.2)
    else if maxTok ≤ cur.length + 1 then ([], some GoError.ErrTooLong)
    else scanFrom maxTok rest (b :: cur)

/-- A scanner created by `bufio.NewScanner` and run to its end over `data`. -/
def scanLines (data : List Byte) : List (List Byte) × Option GoError :=
  scanFrom MaxScanTokenSize data []

/-! ## The CRI runtime service and the host -/

/-- The enum `kubeapi.PodSandboxState`. -/
inductive PodSandboxState
  | SANDBOX_READY
  | SANDBOX_NOTREADY
  deriving DecidableEq, Repr

/-- The enum `kubeapi.ContainerState`. -/
inductive ContainerState
  | CONTAINER_CREATED
  | CONTAINER_RUNNING
  | CONTAINER_EXITED
  | CONTAINER_UNKNOWN
  deriving DecidableEq, Repr

/-- The fields of `kubeapi.PodSandbox` the code reads. -/
structure PodSandbox where
  Id : String
  State : PodSandboxState
  deriving DecidableEq, Repr

/-- The fields of `kubeapi.Container` the code reads. -/
structure Container where
  Id : String
  State : ContainerState
  deriving DecidableEq, Repr

/-- The message `kubeapi.PodSandboxFilter`, as far as the code fills it; the label
selector lists the assignments in the order the code makes them. -/
structure PodSandboxFilter where
  LabelSelector : List (String × String)
  State : Option PodSandboxState
  deriving DecidableEq, Repr

/-- The message `kubeapi.ContainerFilter`, as far as the code fills it. -/
structure ContainerFilter where
  PodSandboxId : String
  LabelSelector : List (String × String)
  deriving DecidableEq, Repr

/-- The three operations of `criapi.RuntimeService` the code calls, as oracles.
`ExecSync` answers with `(stdout, stderr)` or an error. -/
structure RuntimeService where
  ListPodSandbox : PodSandboxFilter → Except GoError (List PodSandbox)
  ListContainers : ContainerFilter → Except GoError (List Container)
  ExecSync : String → List String → Duration → Except GoError (List Byte × List Byte)

/-- What the package takes from outside this file: the package variable `CriRuntime`,
the constructor `remote.NewRemoteRuntimeService` and the PID locator `FindPidsInNS`. -/
structure Host where
  CriRuntime : String
  NewRemoteRuntimeService : String → Duration → Except GoError RuntimeService
  FindPidsInNS : Nat → String → Except GoError (List Int)

/-- The logrus levels the file uses. -/
inductive Level
  | Debug
  | Info
  | Warn
  deriving DecidableEq, Repr

/-- One observable step: a call that leaves the process, or a log line (its message;
the attached fields are not kept). -/
inductive Event
  | newRemoteRuntimeService (endpoint : String) (timeout : Duration)
  | listPodSandbox (filter : PodSandboxFilter)
  | listContainers (filter : ContainerFilter)
  | execSync (containerid : String) (cmd : List String) (timeout : Duration)
  | findPidsInNS (inod : Nat) (ns : String)
  | log (level : Level) (msg : String)
  deriving DecidableEq, Repr

/-- The struct `platforms.ContainerInfo`. -/
structure ContainerInfo where
  Pids : List Int
  Name : String
  Env : GoMap
  deriving DecidableEq, Repr

/-- The input `k8models.KubeAttachment`. -/
structure KubeAttachment where
  Namespace : String
  Pod : String
  Container : String
  deriving DecidableEq, Repr

/-! ## `getEnv` -/

/-- The body of the `for scanner.Scan()` loop of `getEnv`, run over the scanned lines:
`ix := strings.IndexByte(line, '=')`, and when `ix != -1` the assignment
`envVariables[line[:ix-1]] = line[ix+1:]`.  `none` is a slice-bounds panic. -/
def envLoop : List (List Byte) → GoMap → Option GoMap
  | [], envVariables => some envVariables
  | line :: rest, envVariables =>
    let ix := IndexByte line 61
    if ix ≠ -1 then
      match sliceTo line (ix - 1), sliceFrom line (ix + 1) with
      | some key, some val => envLoop rest (envVariables.assign key val)
      | _, _ => none
    else envLoop rest envVariables

/-- The function `getEnv(cli, containerid)`. -/
def getEnv (cli : RuntimeService) (containerid : String) :
    List Event × Outcome (GoMap × Option GoError) :=
  let cmd := ["printenv"]
  let envVariables : GoMap := []
  let t := [Event.execSync containerid cmd Second]
  match cli.ExecSync containerid cmd Second with
  | .error err =>
    (t ++ [Event.log Level.Warn "Error exec sync to get environment variables!"],
      Outcome.returned (envVariables, some err))
  | .ok (stdout, _) =>
    let err : Option GoError := none
    let scanner := scanLines stdout
    match envLoop scanner.1 envVariables with
    | none => (t, Outcome.panicked "runtime error: slice bounds out of range")
    | some envVariables =>
      if scanner.2 ≠ none then
        (t ++ [Event.log Level.Warn "Error in reading printenv!"],
          Outcome.returned (envVariables, err))
      else (t, Outcome.returned (envVariables, err))

/-! ## Standard library: `regexp`, for the pattern `ns + ":\[(\d+)\]"` -/

/-- The class `\d` of Go regular expressions: the ASCII digits. -/
def isDigit (b : Byte) : Bool := 48 ≤ b.toNat && b.toNat ≤ 57

/-- Matching a literal at the start of `s`: the rest of `s` when `lit` starts it. -/
def dropLit : List Byte → List Byte → Option (List Byte)
  | [], s => some s
  | _ :: _, [] => none
  | a :: lit, b :: s => if a = b then dropLit lit s else none

/-- The pattern `lit:\[(\d+)\]` anchored at the start of `s`: the text of the capture
group when it matches.  After the literal `lit:[` the group takes the longest run of
digits; the run has to be non-empty and followed by `]`. -/
def matchAt (lit s : List Byte) : Option (List Byte) :=
  match dropLit (lit ++ ascii ":[") s with
  | none => none
  | some rest =>
    let ds := rest.takeWhile isDigit
    if ds ≠ [] ∧ (rest.dropWhile isDigit).head? = some 93 then some ds else none

/-- The call `regexp.MustCompile(ns + ":\[(\d+)\]").FindStringSubmatch(s)` for a kind
name `lit` without regular-expression metacharacters: the leftmost match as
`[whole match, capture group]`, or the empty (nil) slice when nothing matches. -/
def FindStringSubmatch (lit : List Byte) : List Byte → List (List Byte)
  | [] => []
  | b :: rest =>
    match matchAt lit (b :: rest) with
    | some ds => [lit ++ ascii ":[" ++ ds ++ ascii "]", ds]
    | none => FindStringSubmatch lit rest

/-! ## Standard library: `strconv.ParseInt` in base 10 -/

/-- The constant `strconv.IntSize` on the 64-bit targets the agent is built for. -/
def IntSize : Nat := 64

/-- The constant `maxUint64` of `strconv`. -/
def maxUint64 : Nat := 2 ^ 64 - 1

/-- The digit value `strconv.ParseUint` gives a byte (`0-9`, `a-z`, `A-Z`). -/
def digitOf (c : Byte) : Option Nat :=
  if 48 ≤ c.toNat ∧ c.toNat ≤ 57 then some (c.toNat - 48)
  else if 97 ≤ c.toNat ∧ c.toNat ≤ 122 then some (c.toNat - 97 + 10)
  else if 65 ≤ c.toNat ∧ c.toNat ≤ 90 then some (c.toNat - 65 + 10)
  else none

/-- The digit loop of `strconv.ParseUint` over `uint64` arithmetic; `s0` is the whole
argument, for the error value. -/
def parseUintLoop (s0 : List Byte) (base cutoff maxVal : Nat) :
    List Byte → Nat → Nat × Option GoError
  | [], n => (n, none)
  | c :: cs, n =>
    match digitOf c with
    | none => (0, some (GoError.numError "ParseUint" s0 NumErrKind.ErrSyntax))
    | some d =>
      if base ≤ d then (0, some (GoError.numError "ParseUint" s0 NumErrKind.ErrSyntax))
      else if cutoff ≤ n then (maxVal, some (GoError.numError "ParseUint" s0 NumErrKind.ErrRange))
      else
        let n := n * base % 2 ^ 64
        let n1 := (n + d) % 2 ^ 64
        if n1 < n ∨ maxVal < n1 then
          (maxVal, some (GoError.numError "ParseUint" s0 NumErrKind.ErrRange))
        else parseUintLoop s0 base cutoff maxVal cs n1

/-- The call `strconv.ParseUint(s, 10, bitSize)` for `bitSize ≤ 64`. -/
def ParseUint (s : List Byte) (bitSize : Nat) : Nat × Option GoError :=
  if s.length = 0 then (0, some (GoError.numError "ParseUint" s NumErrKind.ErrSyntax))
  else
    let bitSize := if bitSize = 0 then IntSize else bitSize
    let cutoff := maxUint64 / 10 + 1
    let maxVal := (2 ^ bitSize - 1) % 2 ^ 64
    parseUintLoop s 10 cutoff maxVal s 0

/-- The conversion `int64(u)` of a `uint64`. -/
def int64 (u : Nat) : Int :=
  if u % 2 ^ 64 < 2 ^ 63 then ((u % 2 ^ 64 : Nat) : Int) else ((u % 2 ^ 64 : Nat) : Int) - 2 ^ 64

/-- The conversion `uint64(i)` of an `int64`. -/
def uint64 (i : Int) : Nat := (i % 2 ^ 64).toNat

/-- The call `strconv.ParseInt(s, 10, bitSize)` for `bitSize ≤ 64`. -/
def ParseInt (s : List Byte) (bitSize : Nat) : Int × Option GoError :=
  if s = [] then (0, some (GoError.numError "ParseInt" s NumErrKind.ErrSyntax))
  else
    let s0 := s
    let neg := s.head? = some 45
    let s := if s.head? = some 43 ∨ s.head? = some 45 then s.tail else s
    let r := ParseUint s bitSize
    match r.2 with
    | some (GoError.numError _ _ NumErrKind.ErrSyntax) =>
      (0, some (GoError.numError "ParseInt" s0 NumErrKind.ErrSyntax))
    | _ =>
      let un := r.1
      let bitSize := if bitSize = 0 then IntSize else bitSize
      let cutoff := 2 ^ (bitSize - 1) % 2 ^ 64
      if ¬ neg ∧ cutoff ≤ un then
        (int64 (cutoff - 1), some (GoError.numError "ParseInt" s0 NumErrKind.ErrRange))
      else if neg ∧ cutoff < un then
        (int64 (uint64 (- int64 cutoff)), some (GoError.numError "ParseInt" s0 NumErrKind.ErrRange))
      else
        let n := int64 un
        (if neg then int64 (uint64 (- n)) else n, none)

/-! ## `getNS` -/

/-- The function `getNS(origctx, cli, ns, containerid)`; the context is not used by
the body and is left out.  The source compiles `ns` into the regular expression; the
embedding matches `ns` byte for byte, which is the same for a kind name without
metacharacters such as `mnt`, the only one the package passes. -/
def getNS (cli : RuntimeService) (ns : String) (containerid : String) :
    List Event × (Nat × Option GoError) :=
  let cmd := ["ls", "-l", "/proc/self/ns/"]
  let t := [Event.execSync containerid cmd Second]
  match cli.ExecSync containerid cmd Second with
  | .error err =>
    (t ++ [Event.log Level.Warn "Error exec sync to get pid ns!"], (0, some err))
  | .ok (stdout, _) =>
    let output := stdout
    let submatches := FindStringSubmatch (ascii ns) output
    if submatches.length ≠ 2 then
      (t, (0, some (GoError.errorsNew "mnt namespace not found")))
    else
      let r := ParseInt (submatches.getD 1 []) 0
      (t, (uint64 r.1, r.2))

/-! ## `GetContainerInfoKube` -/

/-- The method `GetContainerInfoKube(maincontext, ka)`.  The context only reaches
`getNS`, which ignores it, so it is left out. -/
def GetContainerInfoKube (h : Host) (ka : KubeAttachment) :
    List Event × Outcome (Option ContainerInfo × Option GoError) :=
  let endpoint := "unix://" ++ h.CriRuntime
  let t := [Event.newRemoteRuntimeService endpoint defaultTimeout]
  match h.NewRemoteRuntimeService endpoint defaultTimeout with
  | .error err => (t, Outcome.returned (none, some err))
  | .ok runtimeService =>
    let labels := [("io.kubernetes.pod.name", ka.Pod), ("io.kubernetes.pod.namespace", ka.Namespace)]
    let inpod : PodSandboxFilter :=
      { LabelSelector := labels, State := some PodSandboxState.SANDBOX_READY }
    let t := t ++ [Event.log Level.Debug "Cri GetPid ListPodSandbox", Event.listPodSandbox inpod]
    match runtimeService.ListPodSandbox inpod with
    | .error err =>
      (t ++ [Event.log Level.Warn "ListPodSandbox error"], Outcome.returned (none, some err))
    | .ok resp =>
      if resp.length ≠ 1 then
        (t ++ [Event.log Level.Warn "Invalid number of pods"],
          Outcome.returned (none, some (GoError.errorsNew "Invalid number of pods")))
      else
        match resp.head? with
        | none => (t, Outcome.panicked "runtime error: index out of range")
        | some pod =>
          let labels := [("io.kubernetes.container.name", ka.Container)]
          let incont : ContainerFilter := { PodSandboxId := pod.Id, LabelSelector := labels }
          let t := t ++ [Event.log Level.Debug "Cri GetPid ListContainers",
            Event.listContainers incont]
          match runtimeService.ListContainers incont with
          | .error err =>
            (t ++ [Event.log Level.Warn "ListContainers error"],
              Outcome.returned (none, some err))
          | .ok respcont =>
            let t := t ++ [Event.log Level.Debug "Cri GetPid ListContainers - got response"]
            let containers :=
              respcont.filter (fun cont => cont.State = ContainerState.CONTAINER_RUNNING)
            let t := t ++
              [Event.log Level.Debug "Cri GetPid ListContainers - filtered response"]
            if containers.length ≠ 1 then
              (t ++ [Event.log Level.Warn "Invalid number of containers"],
                Outcome.returned (none, some (GoError.errorsNew "Invalid number of containers")))
            else
              match containers.head? with
              | none => (t, Outcome.panicked "runtime error: index out of range")
              | some container =>
                let containerid := container.Id
                let nstocheck := "mnt"
                let rns := getNS runtimeService nstocheck containerid
                let t := t ++ rns.1
                match rns.2.2 with
                | some err =>
                  (t ++ [Event.log Level.Warn "getNS error"], Outcome.returned (none, some err))
                | none =>
                  let nsinod := rns.2.1
                  let t := t ++ [Event.findPidsInNS nsinod nstocheck]
                  match h.FindPidsInNS nsinod nstocheck with
                  | .error err =>
                    (t ++ [Event.log Level.Warn "FindPidsInNS error"],
                      Outcome.returned (none, some err))
                  | .ok potentialpids =>
                    let t := t ++ [Event.log Level.Info "found some pids"]
                    let renv := getEnv runtimeService containerid
                    let t := t ++ renv.1
                    match renv.2 with
                    | Outcome.panicked msg => (t, Outcome.panicked msg)
                    | Outcome.returned (_, some err) =>
                      (t ++ [Event.log Level.Warn "FindEnv error"],
                        Outcome.returned (none, some err))
                    | Outcome.returned (envVariables, none) =>
                      (t, Outcome.returned
                        (some { Pids := potentialpids,
                                Name := ka.Pod ++ "." ++ ka.Namespace,
                                Env := envVariables }, none))

/-! ## Fixtures for the concrete runs -/

/-- A runtime service with fixed answers: `pods` to every sandbox query, `conts` to
every container query, `printenv` as the standard output of `printenv` and `ls` as the
standard output of every other command. -/
def fixedRuntime (pods : Except GoError (List PodSandbox))
    (conts : Except GoError (List Container))
    (ls printenv : Except GoError (List Byte)) : RuntimeService :=
  { ListPodSandbox := fun _ => pods
    ListContainers := fun _ => conts
    ExecSync := fun _ cmd _ =>
      match (if cmd = ["printenv"] then printenv else ls) with
      | .ok out => .ok (out, [])
      | .error e => .error e }

/-- A host whose CRI socket answers with `rs` and whose PID locator answers `pids`. -/
def fixedHost (rs : Except GoError RuntimeService) (pids : Except GoError (List Int)) : Host :=
  { CriRuntime := "/var/run/dockershim.sock"
    NewRemoteRuntimeService := fun _ _ => rs
    FindPidsInNS := fun _ _ => pids }

/-! ## The wording of the specification, for comparison with the code -/

/-- Spec wording, "the pattern `<kind>:[<digits>]`": `s` reads `pre`, then `lit:[`,
then the non-empty run of decimal digits `ds`, then `]`, then `post`. -/
def OccursAt (lit pre ds post s : List Byte) : Prop :=
  s = pre ++ (lit ++ ascii ":[" ++ ds ++ ascii "]" ++ post) ∧ ds ≠ [] ∧
    ∀ d ∈ ds, isDigit d = true

/-- Spec wording: the text holds an occurrence of the pattern somewhere. -/
def HasOccurrence (lit s : List Byte) : Prop :=
  ∃ pre ds post, OccursAt lit pre ds post s

/-- Spec wording, "the first match": an occurrence no other occurrence starts before. -/
def FirstOccurrence (lit pre ds post s : List Byte) : Prop :=
  OccursAt lit pre ds post s ∧
    ∀ pre2 ds2 post2, OccursAt lit pre2 ds2 post2 s → pre.length ≤ pre2.length

/-- Spec wording, "decimal-parsed": the number a run of decimal digits denotes. -/
def decimalValue (ds : List Byte) : Nat :=
  ds.foldl (fun n d => 10 * n + (d.toNat - 48)) 0

/-- Whether an event is a call that leaves the process (not a log line). -/
def Event.isCall : Event → Bool
  | Event.log _ _ => false
  | _ => true

/-- The calls of a run, in order, without the log lines. -/
def calls (t : List Event) : List Event := t.filter Event.isCall

/-- The sandbox filter `GetContainerInfoKube` builds from the request. -/
def sandboxQuery (ka : KubeAttachment) : PodSandboxFilter :=
  { LabelSelector :=
      [("io.kubernetes.pod.name", ka.Pod), ("io.kubernetes.pod.namespace", ka.Namespace)]
    State := some PodSandboxState.SANDBOX_READY }

/-- The container filter `GetContainerInfoKube` builds for a sandbox. -/
def containerQuery (ka : KubeAttachment) (pod : PodSandbox) : ContainerFilter :=
  { PodSandboxId := pod.Id, LabelSelector := [("io.kubernetes.container.name", ka.Container)] }

/-- Spec wording, "exactly one running container": `c` is listed in `respcont`, is
running, and no other listed container is. -/
def UniqueRunning (respcont : List Container) (c : Container) : Prop :=
  ∃ before after, respcont = before ++ c :: after ∧
    c.State = ContainerState.CONTAINER_RUNNING ∧
    ∀ x ∈ before ++ after, x.State ≠ ContainerState.CONTAINER_RUNNING

/-- Spec wording, "abort and surface that stage's error without attempting later
stages": `AbortsAt h ka e cs` says which stage is the first to fail for the request `ka`
on the host `h`, that `e` is the error this stage produced, and that `cs` lists the
calls up to and including this stage's call.  Stage 0 is the construction of the runtime
client, which precedes the sandbox query. -/
inductive AbortsAt (h : Host) (ka : KubeAttachment) : GoError → List Event → Prop
  | client (e : GoError)
      (hconn : h.NewRemoteRuntimeService ("unix://" ++ h.CriRuntime) defaultTimeout = .error e) :
      AbortsAt h ka e
        [Event.newRemoteRuntimeService ("unix://" ++ h.CriRuntime) defaultTimeout]
  | sandboxList (rs : RuntimeService) (e : GoError)
      (hconn : h.NewRemoteRuntimeService ("unix://" ++ h.CriRuntime) defaultTimeout = .ok rs)
      (hlist : rs.ListPodSandbox (sandboxQuery ka) = .error e) :
      AbortsAt h ka e
        [Event.newRemoteRuntimeService ("unix://" ++ h.CriRuntime) defaultTimeout,
          Event.listPodSandbox (sandboxQuery ka)]
  | sandboxCount (rs : RuntimeService) (resp : List PodSandbox)
      (hconn : h.NewRemoteRuntimeService ("unix://" ++ h.CriRuntime) defaultTimeout = .ok rs)
      (hlist : rs.ListPodSandbox (sandboxQuery ka) = .ok resp)
      (hlen : resp.length ≠ 1) :
      AbortsAt h ka (GoError.errorsNew "Invalid number of pods")
        [Event.newRemoteRuntimeService ("unix://" ++ h.CriRuntime) defaultTimeout,
          Event.listPodSandbox (sandboxQuery ka)]
  | containerList (rs : RuntimeService) (pod : PodSandbox) (e : GoError)
      (hconn : h.NewRemoteRuntimeService ("unix://" ++ h.CriRuntime) defaultTimeout = .ok rs)
      (hlist : rs.ListPodSandbox (sandboxQuery ka) = .ok [pod])
      (hcont : rs.ListContainers (containerQuery ka pod) = .error e) :
      AbortsAt h ka e
        [Event.newRemoteRuntimeService ("unix://" ++ h.CriRuntime) defaultTimeout,
          Event.listPodSandbox (sandboxQuery ka),
          Event.listContainers (containerQuery ka pod)]
  | containerCount (rs : RuntimeService) (pod : PodSandbox) (respcont : List Container)
      (hconn : h.NewRemoteRuntimeService ("unix://" ++ h.CriRuntime) defaultTimeout = .ok rs)
      (hlist : rs.ListPodSandbox (sandboxQuery ka) = .ok [pod])
      (hcont : rs.ListContainers (containerQuery ka pod) = .ok respcont)
      (hcount : respcont.countP (fun x => x.State = ContainerState.CONTAINER_RUNNING) ≠ 1) :
      AbortsAt h ka (GoError.errorsNew "Invalid number of containers")
        [Event.newRemoteRuntimeService ("unix://" ++ h.CriRuntime) defaultTimeout,
          Event.listPodSandbox (sandboxQuery ka),
          Event.listContainers (containerQuery ka pod)]
  | namespaceInode (rs : RuntimeService) (pod : PodSandbox) (respcont : List Container)
      (c : Container) (e : GoError)
      (hconn : h.NewRemoteRuntimeService ("unix://" ++ h.CriRuntime) defaultTimeout = .ok rs)
      (hlist : rs.ListPodSandbox (sandboxQuery ka) = .ok [pod])
      (hcont : rs.ListContainers (containerQuery ka pod) = .ok respcont)
      (hrun : UniqueRunning respcont c)
      (hns : (getNS rs "mnt" c.Id).2.2 = some e) :
      AbortsAt h ka e
        [Event.newRemoteRuntimeService ("unix://" ++ h.CriRuntime) defaultTimeout,
          Event.listPodSandbox (sandboxQuery ka),
          Event.listContainers (containerQuery ka pod),
          Event.execSync c.Id ["ls", "-l", "/proc/self/ns/"] Second]
  | pidLocator (rs : RuntimeService) (pod : PodSandbox) (respcont : List Container)
      (c : Container) (inod : Nat) (e : GoError)
      (hconn : h.NewRemoteRuntimeService ("unix://" ++ h.CriRuntime) defaultTimeout = .ok rs)
      (hlist : rs.ListPodSandbox (sandboxQuery ka) = .ok [pod])
      (hcont : rs.ListContainers (containerQuery ka pod) = .ok respcont)
      (hrun : UniqueRunning respcont c)
      (hns : (getNS rs "mnt" c.Id).2 = (inod, none))
      (hpid : h.FindPidsInNS inod "mnt" = .error e) :
      AbortsAt h ka e
        [Event.newRemoteRuntimeService ("unix://" ++ h.CriRuntime) defaultTimeout,
          Event.listPodSandbox (sandboxQuery ka),
          Event.listContainers (containerQuery ka pod),
          Event.execSync c.Id ["ls", "-l", "/proc/self/ns/"] Second,
          Event.findPidsInNS inod "mnt"]
  | environment (rs : RuntimeService) (pod : PodSandbox) (respcont : List Container)
      (c : Container) (inod : Nat) (pids : List Int) (m : GoMap) (e : GoError)
      (hconn : h.NewRemoteRuntimeService ("unix://" ++ h.CriRuntime) defaultTimeout = .ok rs)
      (hlist : rs.ListPodSandbox (sandboxQuery ka) = .ok [pod])
      (hcont : rs.ListContainers (containerQuery ka pod) = .ok respcont)
      (hrun : UniqueRunning respcont c)
      (hns : (getNS rs "mnt" c.Id).2 = (inod, none))
      (hpid : h.FindPidsInNS inod "mnt" = .ok pids)
      (henv : (getEnv rs c.Id).2 = Outcome.returned (m, some e)) :
      AbortsAt h ka e
        [Event.newRemoteRuntimeService ("unix://" ++ h.CriRuntime) defaultTimeout,
          Event.listPodSandbox (sandboxQuery ka),
          Event.listContainers (containerQuery ka pod),
          Event.execSync c.Id ["ls", "-l", "/proc/self/ns/"] Second,
          Event.findPidsInNS inod "mnt",
          Event.execSync c.Id ["printenv"] Second]

/-- Spec wording, "resolution proceeds to namespace/PID/env steps": on the host `h` and
for the request `ka` every stage before the environment stage succeeds, `rs` is the
runtime client, `cid` the id of the one running container, and `cs` lists the six calls
of a run that reaches the environment stage. -/
def ReachesEnvironment (h : Host) (ka : KubeAttachment) (rs : RuntimeService)
    (cid : String) (cs : List Event) : Prop :=
  ∃ pod respcont c inod pids,
    h.NewRemoteRuntimeService ("unix://" ++ h.CriRuntime) defaultTimeout = .ok rs ∧
    rs.ListPodSandbox (sandboxQuery ka) = .ok [pod] ∧
    rs.ListContainers (containerQuery ka pod) = .ok respcont ∧
    UniqueRunning respcont c ∧ cid = c.Id ∧
    (getNS rs "mnt" c.Id).2 = (inod, none) ∧
    h.FindPidsInNS inod "mnt" = .ok pids ∧
    cs = [Event.newRemoteRuntimeService ("unix://" ++ h.CriRuntime) defaultTimeout,
          Event.listPodSandbox (sandboxQuery ka),
          Event.listContainers (containerQuery ka pod),
          Event.execSync c.Id ["ls", "-l", "/proc/self/ns/"] Second,
          Event.findPidsInNS inod "mnt",
          Event.execSync c.Id ["printenv"] Second]

/-- The request used in the concrete runs. -/
def sampleAttachment : KubeAttachment :=
  { Namespace := "default", Pod := "web-0", Container := "app" }

/-- One ready sandbox. -/
def sampleSandbox : PodSandbox := { Id := "sb-1", State := PodSandboxState.SANDBOX_READY }

/-- The running container of the concrete runs. -/
def sampleContainer : Container := { Id := "c1", State := ContainerState.CONTAINER_RUNNING }

/-- A container list with one running container between two that are not running. -/
def sampleContainers : List Container :=
  [{ Id := "c0", State := ContainerState.CONTAINER_EXITED }, sampleContainer,
    { Id := "c2", State := ContainerState.CONTAINER_CREATED }]

/-- An `ls -l /proc/self/ns/` output with the mount namespace `4026532605`. -/
def sampleLs : List Byte :=
  ascii "total 0\nlrwxrwxrwx 1 root root 0 Jul 28 16:39 mnt -> mnt:[4026532605]\n"

/-- A `printenv` output. -/
def samplePrintenv : List Byte := ascii "PATH=/bin\nHOME=/root\n"

/-- A runtime on which every query of the pipeline succeeds. -/
def sampleRuntime : RuntimeService :=
  fixedRuntime (.ok [sampleSandbox]) (.ok sampleContainers) (.ok sampleLs) (.ok samplePrintenv)

/-- A host on which every stage of the pipeline succeeds. -/
def sampleHost : Host := fixedHost (.ok sampleRuntime) (.ok [4711, 4712])

/-- A host whose runtime reports two ready sandboxes for the request. -/
def twoSandboxHost : Host :=
  fixedHost
    (.ok (fixedRuntime (.ok [sampleSandbox, { Id := "sb-2", State := PodSandboxState.SANDBOX_READY }])
      (.ok sampleContainers) (.ok sampleLs) (.ok samplePrintenv)))
    (.ok [4711, 4712])

/-- A host whose PID locator fails. -/
def pidFailHost : Host := fixedHost (.ok sampleRuntime) (.error (GoError.external 2))

/-- A runtime on which only the `printenv` exec fails. -/
def envFailRuntime : RuntimeService :=
  fixedRuntime (.ok [sampleSandbox]) (.ok sampleContainers) (.ok sampleLs)
    (.error (GoError.external 1))

/-- A host on which every stage up to the PID locator succeeds and `printenv` fails. -/
def envFailHost : Host := fixedHost (.ok envFailRuntime) (.ok [4711, 4712])

/-! ## The line scanner and `getEnv` -/

theorem scanFrom_append_lf (maxTok : Nat) (p rest cur : List Byte) :
    scanFrom maxTok (p ++ 10 :: rest) cur =
      if (scanFrom maxTok (p ++ [10]) cur).2 = none then
        ((scanFrom maxTok (p ++ [10]) cur).1 ++ (scanFrom maxTok rest []).1,
          (scanFrom maxTok rest []).2)
      else scanFrom maxTok (p ++ [10]) cur := by
  induction p generalizing cur with
  | nil => simp [scanFrom]
  | cons b p ih =>
    by_cases hb : b = 10
    · subst hb
      have := ih []
      rw [List.cons_append, List.cons_append]
      simp only [scanFrom, if_true]
      rw [this]
      split <;> simp_all
    · by_cases hl : maxTok ≤ cur.length + 1
      · simp [scanFrom, hb, hl]
      · rw [List.cons_append, List.cons_append]
        simp only [scanFrom, hb, hl, if_false]
        exact ih (b :: cur)

theorem scanFrom_too_long (maxTok : Nat) (long cur : List Byte)
    (hcur : cur.length < maxTok) (hlen : maxTok ≤ cur.length + long.length)
    (hnl : ∀ b ∈ long.take (maxTok - cur.length), b ≠ 10) :
    scanFrom maxTok long cur = ([], some GoError.ErrTooLong) := by
  induction long generalizing cur with
  | nil => simp at hlen; omega
  | cons b rest ih =>
    have hk : maxTok - cur.length = (maxTok - cur.length - 1) + 1 := by omega
    rw [hk, List.take_succ_cons] at hnl
    have hb : b ≠ 10 := hnl b (List.mem_cons_self _ _)
    by_cases hl : maxTok ≤ cur.length + 1
    · simp [scanFrom, hb, hl]
    · simp only [scanFrom, hb, hl, if_false]
      apply ih
      · simp; omega
      · simp at hlen ⊢; omega
      · intro x hx
        apply hnl x
        apply List.mem_cons_of_mem
        simpa [Nat.sub_sub] using hx
theorem replicate_a_long :
    MaxScanTokenSize ≤ (List.replicate 65536 (97 : Byte)).length ∧
    ∀ b ∈ (List.replicate 65536 (97 : Byte)).take MaxScanTokenSize, b ≠ 10 := by
  constructor
  · rw [List.length_replicate]; decide
  · intro b hb
    have := List.eq_of_mem_replicate (List.mem_of_mem_take hb)
    subst this; decide

theorem scanLines_too_long (pre long : List Byte)
    (hpre : pre = [] ∨ pre.getLast? = some 10)
    (hclean : (scanLines pre).2 = none)
    (hlen : MaxScanTokenSize ≤ long.length)
    (hnl : ∀ b ∈ long.take MaxScanTokenSize, b ≠ 10) :
    scanLines (pre ++ long) = ((scanLines pre).1, some GoError.ErrTooLong) := by
  have hlong : scanFrom MaxScanTokenSize long [] = ([], some GoError.ErrTooLong) := by
    apply scanFrom_too_long
    · simp [MaxScanTokenSize]
    · simpa using hlen
    · simpa using hnl
  rcases hpre with rfl | hlast
  · simp [scanLines, hlong, scanFrom]
  · obtain ⟨p, rfl⟩ := List.getLast?_eq_some_iff.mp hlast
    unfold scanLines at hclean ⊢
    rw [List.append_assoc, List.singleton_append, scanFrom_append_lf, if_pos hclean, hlong]
    simp

/-- C1: on the spec's own sample `FOO=bar`, `BAZ=qux=1`, `NOEQUALS` the map `getEnv`
returns holds the keys `FO` and `BA` (each key has lost its last byte), so neither
`FOO` nor `BAZ` is a key of it. -/
theorem getEnv_sample_keys_truncated :
    (getEnv (fixedRuntime (.ok []) (.ok []) (.ok [])
        (.ok (ascii "FOO=bar\nBAZ=qux=1\nNOEQUALS\n"))) "c").2 =
      Outcome.returned ([(ascii "FO", ascii "bar"), (ascii "BA", ascii "qux=1")], none) ∧
    GoMap.lookup [(ascii "FO", ascii "bar"), (ascii "BA", ascii "qux=1")] (ascii "FOO") = none ∧
    GoMap.lookup [(ascii "FO", ascii "bar"), (ascii "BA", ascii "qux=1")] (ascii "BAZ") = none := by
  decide

/-- C10: on the output `=x` (a line whose first byte is the separator) the key slice
`line[:ix-1]` has the bound `-1` and `getEnv` ends in a slice-bounds panic instead of
returning a map. -/
theorem getEnv_empty_key_panics :
    IndexByte (ascii "=x") 61 = 0 ∧ sliceTo (ascii "=x") (0 - 1) = none ∧
    (getEnv (fixedRuntime (.ok []) (.ok []) (.ok []) (.ok (ascii "=x\n"))) "c").2 =
      Outcome.panicked "runtime error: slice bounds out of range" := by
  decide

/-- C8, as the code has it: when the output is `pre ++ long`, where `pre` is a run of
complete lines that scans cleanly and on which the loop does not panic, and `long` starts
with `MaxScanTokenSize` bytes free of line feeds, the scanner stops with `ErrTooLong`
after the lines of `pre`, and `getEnv` returns the map accumulated from those lines with
a nil error; the scan failure is written to the log only. -/
theorem getEnv_scan_error_logged_only (cli : RuntimeService) (containerid : String)
    (pre long errOut : List Byte) (m : GoMap)
    (hexec : cli.ExecSync containerid ["printenv"] Second = .ok (pre ++ long, errOut))
    (hpre : pre = [] ∨ pre.getLast? = some 10)
    (hclean : (scanLines pre).2 = none)
    (hlen : MaxScanTokenSize ≤ long.length)
    (hnl : ∀ b ∈ long.take MaxScanTokenSize, b ≠ 10)
    (hm : envLoop (scanLines pre).1 [] = some m) :
    scanLines (pre ++ long) = ((scanLines pre).1, some GoError.ErrTooLong) ∧
    getEnv cli containerid =
      ([Event.execSync containerid ["printenv"] Second,
        Event.log Level.Warn "Error in reading printenv!"],
       Outcome.returned (m, none)) := by
  have hs := scanLines_too_long pre long hpre hclean hlen hnl
  refine ⟨hs, ?_⟩
  simp [getEnv, hexec, hs, hm]

theorem getEnv_scan_error_logged_only_witness :
    getEnv (fixedRuntime (.ok []) (.ok []) (.ok [])
        (.ok (ascii "AB=1\n" ++ List.replicate 65536 97))) "c" =
      ([Event.execSync "c" ["printenv"] Second,
        Event.log Level.Warn "Error in reading printenv!"],
       Outcome.returned ([(ascii "A", ascii "1")], none)) :=
  (getEnv_scan_error_logged_only
    (fixedRuntime (.ok []) (.ok []) (.ok []) (.ok (ascii "AB=1\n" ++ List.replicate 65536 97)))
    "c" (ascii "AB=1\n") (List.replicate 65536 97) [] [(ascii "A", ascii "1")]
    (by rfl) (Or.inr (by decide)) (by decide) replicate_a_long.1 replicate_a_long.2
    (by decide)).2

/-- C8 fails as stated: the output `AB=1` followed by a line of 65536 bytes `a` makes
the scanner stop with `ErrTooLong`, and the error `getEnv` returns is nil. -/
theorem getEnv_scan_error_returns_nil :
    (scanLines (ascii "AB=1\n" ++ List.replicate 65536 97)).2 = some GoError.ErrTooLong ∧
    (getEnv (fixedRuntime (.ok []) (.ok []) (.ok [])
        (.ok (ascii "AB=1\n" ++ List.replicate 65536 97))) "c").2 =
      Outcome.returned ([(ascii "A", ascii "1")], none) := by
  have hs : scanLines (ascii "AB=1\n" ++ List.replicate 65536 97) =
      ((scanLines (ascii "AB=1\n")).1, some GoError.ErrTooLong) := by
    exact scanLines_too_long _ _ (Or.inr (by decide)) (by decide)
      replicate_a_long.1 replicate_a_long.2
  have hm : envLoop (scanLines (ascii "AB=1\n")).1 [] = some [(ascii "A", ascii "1")] := by
    decide
  refine ⟨by rw [hs], ?_⟩
  generalize List.replicate 65536 (97 : Byte) = long at hs ⊢
  simp [getEnv, fixedRuntime, hs, hm]

/-! ## The pattern matcher against the wording of the specification -/

theorem dropLit_append (lit rest : List Byte) : dropLit lit (lit ++ rest) = some rest := by
  induction lit with
  | nil => cases rest <;> simp [dropLit]
  | cons a lit ih => simp [dropLit, ih]

theorem dropLit_eq_some {lit s rest : List Byte} (h : dropLit lit s = some rest) :
    s = lit ++ rest := by
  induction lit generalizing s with
  | nil => cases s <;> simp_all [dropLit]
  | cons a lit ih =>
    cases s with
    | nil => simp [dropLit] at h
    | cons b s =>
      by_cases hab : a = b
      · simp only [dropLit, hab, if_true] at h
        simp [hab, ih h]
      · simp [dropLit, hab] at h

theorem digits_then_bracket (ds post : List Byte) (hd : ∀ d ∈ ds, isDigit d = true) :
    (ds ++ 93 :: post).takeWhile isDigit = ds ∧
    (ds ++ 93 :: post).dropWhile isDigit = 93 :: post := by
  have h93 : isDigit 93 = false := by decide
  induction ds with
  | nil => simp [List.takeWhile, List.dropWhile, h93]
  | cons d ds ih =>
    have hd0 : isDigit d = true := hd d (List.mem_cons_self _ _)
    have := ih (fun x hx => hd x (List.mem_cons_of_mem _ hx))
    simp [List.takeWhile, List.dropWhile, hd0, this]

theorem matchAt_of_occurs {lit ds post s : List Byte} (h : OccursAt lit [] ds post s) :
    matchAt lit s = some ds := by
  obtain ⟨hs, hne, hd⟩ := h
  have hs2 : s = (lit ++ ascii ":[") ++ (ds ++ 93 :: post) := by
    rw [hs]; simp [ascii]
  obtain ⟨h1, h2⟩ := digits_then_bracket ds post hd
  unfold matchAt
  rw [hs2, dropLit_append]
  simp only [h1, h2]
  simp [hne]

theorem occurs_of_matchAt {lit ds s : List Byte} (h : matchAt lit s = some ds) :
    ∃ post, OccursAt lit [] ds post s := by
  unfold matchAt at h
  split at h
  · simp at h
  · rename_i rest hrest
    have hs := dropLit_eq_some hrest
    simp only at h
    split at h
    · rename_i hc
      obtain ⟨hne, hhead⟩ := hc
      simp only [Option.some.injEq] at h
      cases hdw : rest.dropWhile isDigit with
      | nil => simp [hdw] at hhead
      | cons x post =>
        simp [hdw] at hhead
        subst hhead
        refine ⟨post, ?_, ?_, ?_⟩
        · have := List.takeWhile_append_dropWhile isDigit rest
          rw [hdw, h] at this
          rw [hs, ← this]; simp [ascii]
        · rw [← h]; exact hne
        · intro d hd
          rw [← h] at hd
          exact (List.mem_takeWhile_imp hd)
    · simp at h
theorem occursAt_cons {lit pre ds post s : List Byte} (b : Byte)
    (h : OccursAt lit pre ds post s) : OccursAt lit (b :: pre) ds post (b :: s) := by
  obtain ⟨hs, hne, hd⟩ := h
  exact ⟨by rw [hs]; rfl, hne, hd⟩

theorem occursAt_tail {lit pre ds post s : List Byte} {b : Byte}
    (h : OccursAt lit (b :: pre) ds post (b :: s)) : OccursAt lit pre ds post s := by
  obtain ⟨hs, hne, hd⟩ := h
  refine ⟨?_, hne, hd⟩
  simpa using hs

theorem occursAt_head_eq {lit pre ds post s : List Byte} {a b : Byte}
    (h : OccursAt lit (a :: pre) ds post (b :: s)) : a = b := by
  obtain ⟨hs, _, _⟩ := h
  simp at hs
  exact hs.1.symm

theorem find_of_first {lit pre ds post s : List Byte}
    (h : FirstOccurrence lit pre ds post s) :
    FindStringSubmatch lit s = [lit ++ ascii ":[" ++ ds ++ ascii "]", ds] := by
  induction pre generalizing s with
  | nil =>
    have hm := matchAt_of_occurs h.1
    cases s with
    | nil =>
      have := h.1.1
      simp [ascii] at this
    | cons b rest => simp [FindStringSubmatch, hm]
  | cons a pre ih =>
    cases s with
    | nil =>
      have := h.1.1
      simp at this
    | cons b rest =>
      have hab : a = b := occursAt_head_eq h.1
      subst hab
      cases hm : matchAt lit (a :: rest) with
      | some ds2 =>
        obtain ⟨post2, ho⟩ := occurs_of_matchAt hm
        have := h.2 [] ds2 post2 ho
        simp at this
      | none =>
        simp only [FindStringSubmatch, hm]
        apply ih
        refine ⟨occursAt_tail h.1, ?_⟩
        intro pre2 ds2 post2 ho
        have := h.2 (a :: pre2) ds2 post2 (occursAt_cons a ho)
        simpa using this

theorem find_ne_nil_of_occurs {lit pre ds post s : List Byte}
    (h : OccursAt lit pre ds post s) : FindStringSubmatch lit s ≠ [] := by
  induction pre generalizing s with
  | nil =>
    have hm := matchAt_of_occurs h
    cases s with
    | nil =>
      have := h.1
      simp [ascii] at this
    | cons b rest => simp [FindStringSubmatch, hm]
  | cons a pre ih =>
    cases s with
    | nil =>
      have := h.1
      simp at this
    | cons b rest =>
      have hab : a = b := occursAt_head_eq h
      subst hab
      cases hm : matchAt lit (a :: rest) with
      | some ds2 => simp [FindStringSubmatch, hm]
      | none =>
        simp only [FindStringSubmatch, hm]
        exact ih (occursAt_tail h)

theorem find_nil_of_no_occurrence {lit s : List Byte} (h : ¬ HasOccurrence lit s) :
    FindStringSubmatch lit s = [] := by
  induction s with
  | nil => rfl
  | cons b rest ih =>
    cases hm : matchAt lit (b :: rest) with
    | some ds =>
      obtain ⟨post, ho⟩ := occurs_of_matchAt hm
      exact absurd ⟨[], ds, post, ho⟩ h
    | none =>
      simp only [FindStringSubmatch, hm]
      apply ih
      rintro ⟨pre, ds, post, ho⟩
      exact h ⟨b :: pre, ds, post, occursAt_cons b ho⟩

theorem find_nil_iff (lit s : List Byte) :
    FindStringSubmatch lit s = [] ↔ ¬ HasOccurrence lit s := by
  constructor
  · rintro hnil ⟨pre, ds, post, ho⟩
    exact find_ne_nil_of_occurs ho hnil
  · exact find_nil_of_no_occurrence
/-! ## `strconv.ParseInt` on a run of digits -/

theorem digitOf_of_isDigit {c : Byte} (h : isDigit c = true) :
    digitOf c = some (c.toNat - 48) ∧ c.toNat - 48 < 10 := by
  simp only [isDigit, Bool.and_eq_true, decide_eq_true_eq] at h
  constructor
  · simp [digitOf, h.1, h.2]
  · omega

theorem foldl_digits_ge (ds : List Byte) (n : Nat) :
    n ≤ ds.foldl (fun n d => 10 * n + (d.toNat - 48)) n := by
  induction ds generalizing n with
  | nil => simp
  | cons d ds ih =>
    simp only [List.foldl_cons]
    exact le_trans (by omega) (ih _)

theorem parseUintLoop_digits (s0 ds : List Byte) (n : Nat)
    (hd : ∀ d ∈ ds, isDigit d = true) (hn : n < 2 ^ 64) :
    parseUintLoop s0 10 (maxUint64 / 10 + 1) (2 ^ 64 - 1) ds n =
      if ds.foldl (fun n d => 10 * n + (d.toNat - 48)) n < 2 ^ 64 then
        (ds.foldl (fun n d => 10 * n + (d.toNat - 48)) n, none)
      else (2 ^ 64 - 1, some (GoError.numError "ParseUint" s0 NumErrKind.ErrRange)) := by
  induction ds generalizing n with
  | nil =>
    simp only [parseUintLoop, List.foldl_nil]
    rw [if_pos hn]
  | cons c cs ih =>
    obtain ⟨hdig, hlt⟩ := digitOf_of_isDigit (hd c (List.mem_cons_self _ _))
    have hcs : ∀ d ∈ cs, isDigit d = true := fun x hx => hd x (List.mem_cons_of_mem _ hx)
    have hge := foldl_digits_ge cs (10 * n + (c.toNat - 48))
    have hcut : maxUint64 / 10 + 1 = 1844674407370955162 := by decide
    simp only [parseUintLoop, hdig, List.foldl_cons, hcut]
    have hnb : ¬ (10 ≤ c.toNat - 48) := by omega
    rw [if_neg hnb]
    by_cases hc : 1844674407370955162 ≤ n
    · rw [if_pos hc, if_neg (by omega)]
    · rw [if_neg hc]
      have h1 : n * 10 % 2 ^ 64 = n * 10 := Nat.mod_eq_of_lt (by omega)
      simp only [h1]
      by_cases hov : n * 10 + (c.toNat - 48) < 2 ^ 64
      · have h2 : (n * 10 + (c.toNat - 48)) % 2 ^ 64 = n * 10 + (c.toNat - 48) :=
          Nat.mod_eq_of_lt hov
        simp only [h2]
        have ih2 := ih (10 * n + (c.toNat - 48)) hcs (by omega)
        rw [hcut] at ih2
        rw [if_neg (by omega), Nat.mul_comm n 10]
        exact ih2
      · have h2 : (n * 10 + (c.toNat - 48)) % 2 ^ 64 = n * 10 + (c.toNat - 48) - 2 ^ 64 := by
          rw [Nat.mod_eq_sub_mod (by omega)]
          exact Nat.mod_eq_of_lt (by omega)
        simp only [h2]
        rw [if_pos (by omega), if_neg (by omega)]

theorem ParseUint_digits (ds : List Byte) (hne : ds ≠ [])
    (hd : ∀ d ∈ ds, isDigit d = true) :
    ParseUint ds 0 =
      if decimalValue ds < 2 ^ 64 then (decimalValue ds, none)
      else (2 ^ 64 - 1, some (GoError.numError "ParseUint" ds NumErrKind.ErrRange)) := by
  have hlen : ¬ ds.length = 0 := by simpa using hne
  have hmax : (2 ^ IntSize - 1) % 2 ^ 64 = 2 ^ 64 - 1 := by decide
  simp only [ParseUint, hlen, if_false, if_true, hmax]
  exact parseUintLoop_digits ds ds 0 hd (by decide)

theorem ParseInt_digits (ds : List Byte) (hne : ds ≠ [])
    (hd : ∀ d ∈ ds, isDigit d = true) :
    ParseInt ds 0 =
      if decimalValue ds < 2 ^ 63 then (((decimalValue ds : Nat) : Int), none)
      else ((2 ^ 63 - 1 : Int), some (GoError.numError "ParseInt" ds NumErrKind.ErrRange)) := by
  cases ds with
  | nil => exact absurd rfl hne
  | cons c cs =>
    have hc := hd c (List.mem_cons_self _ _)
    have h43 : c ≠ 43 := by rintro rfl; exact absurd hc (by decide)
    have h45 : c ≠ 45 := by rintro rfl; exact absurd hc (by decide)
    have hU := ParseUint_digits (c :: cs) (by simp) hd
    have hcut : 2 ^ (IntSize - 1) % 2 ^ 64 = 2 ^ 63 := by decide
    simp only [ParseInt, List.head?_cons, Option.some.injEq, h43, h45, or_self, if_false,
      if_true, hcut, reduceCtorEq]
    by_cases h64 : decimalValue (c :: cs) < 2 ^ 64
    · rw [hU, if_pos h64]
      simp only [not_false_eq_true, true_and, false_and, if_false]
      by_cases h63 : decimalValue (c :: cs) < 2 ^ 63
      · rw [if_neg (by omega), if_pos h63]
        have hmod : decimalValue (c :: cs) % 2 ^ 64 = decimalValue (c :: cs) :=
          Nat.mod_eq_of_lt h64
        simp only [int64, hmod, if_pos h63]
      · rw [if_pos (by omega), if_neg h63]
        simp [int64]
    · rw [hU, if_neg h64]
      simp only [not_false_eq_true, true_and, false_and, if_false]
      rw [if_pos (by omega), if_neg (by omega)]
      simp [int64]
/-! ## `getNS` -/

theorem uint64_natCast (n : Nat) (h : n < 2 ^ 64) : uint64 (n : Int) = n := by
  unfold uint64
  have : ((n : Int) % 2 ^ 64) = (n : Int) := Int.emod_eq_of_lt (by omega) (by omega)
  rw [this]
  simp

/-- What `getNS` returns when the pattern occurs in the output: the first occurrence
decides, its digit group is returned as a number when it is below `2^63`, and from
`2^63` on the result is `2^63 - 1` with the range error of `strconv.ParseInt`. -/
theorem getNS_first_occurrence (cli : RuntimeService) (containerid : String)
    (stdout errOut pre ds post : List Byte)
    (hexec : cli.ExecSync containerid ["ls", "-l", "/proc/self/ns/"] Second =
      .ok (stdout, errOut))
    (hfirst : FirstOccurrence (ascii "mnt") pre ds post stdout) :
    getNS cli "mnt" containerid =
      ([Event.execSync containerid ["ls", "-l", "/proc/self/ns/"] Second],
        if decimalValue ds < 2 ^ 63 then (decimalValue ds, none)
        else (2 ^ 63 - 1, some (GoError.numError "ParseInt" ds NumErrKind.ErrRange))) := by
  have hfind := find_of_first hfirst
  have hparse := ParseInt_digits ds hfirst.1.2.1 hfirst.1.2.2
  simp only [getNS, hexec, hfind, List.length_cons, List.length_nil, ne_eq,
    not_true_eq_false, if_false, List.getD_cons_succ, List.getD_cons_zero, hparse]
  by_cases h63 : decimalValue ds < 2 ^ 63
  · simp only [if_pos h63]
    rw [uint64_natCast _ (by omega)]
  · simp only [if_neg h63]
    have : uint64 (2 ^ 63 - 1) = 2 ^ 63 - 1 := by decide
    rw [this]

theorem firstOccurrence_of_matchAt {lit pre ds post s : List Byte}
    (ho : OccursAt lit pre ds post s)
    (hmin : ∀ k < pre.length, matchAt lit (s.drop k) = none) :
    FirstOccurrence lit pre ds post s := by
  refine ⟨ho, ?_⟩
  intro pre2 ds2 post2 ho2
  by_contra hlt
  have hnone := hmin pre2.length (by omega)
  have hdrop : s.drop pre2.length = lit ++ ascii ":[" ++ ds2 ++ ascii "]" ++ post2 := by
    rw [ho2.1, List.drop_left]
  have hsome : matchAt lit (s.drop pre2.length) = some ds2 :=
    matchAt_of_occurs ⟨by rw [hdrop]; rfl, ho2.2.1, ho2.2.2⟩
  rw [hnone] at hsome
  exact absurd hsome (by simp)

theorem getNS_first_occurrence_witness :
    getNS sampleRuntime "mnt" "c1" =
      ([Event.execSync "c1" ["ls", "-l", "/proc/self/ns/"] Second],
        if decimalValue (ascii "4026532605") < 2 ^ 63 then (decimalValue (ascii "4026532605"), none)
        else (2 ^ 63 - 1,
          some (GoError.numError "ParseInt" (ascii "4026532605") NumErrKind.ErrRange))) :=
  getNS_first_occurrence sampleRuntime "c1" sampleLs []
    (ascii "total 0\nlrwxrwxrwx 1 root root 0 Jul 28 16:39 mnt -> ") (ascii "4026532605")
    (ascii "\n") (by rfl)
    (firstOccurrence_of_matchAt ⟨by decide, by decide, by decide⟩ (by decide))

/-- C5: when the exec succeeds and its output holds no occurrence of
`mnt:[<one or more decimal digits>]`, `getNS` with kind `mnt` returns inode 0 and the
error `mnt namespace not found`. -/
theorem getNS_no_pattern (cli : RuntimeService) (containerid : String)
    (stdout errOut : List Byte)
    (hexec : cli.ExecSync containerid ["ls", "-l", "/proc/self/ns/"] Second =
      .ok (stdout, errOut))
    (hno : ¬ HasOccurrence (ascii "mnt") stdout) :
    getNS cli "mnt" containerid =
      ([Event.execSync containerid ["ls", "-l", "/proc/self/ns/"] Second],
        (0, some (GoError.errorsNew "mnt namespace not found"))) := by
  have hfind := find_nil_of_no_occurrence hno
  simp [getNS, hexec, hfind]

theorem getNS_no_pattern_witness :
    getNS (fixedRuntime (.ok []) (.ok [])
        (.ok (ascii "lrwxrwxrwx 1 root root 0 Jul 28 16:39 pid -> pid:[4026532605]\nmnt:[]\n"))
        (.ok [])) "mnt" "c" =
      ([Event.execSync "c" ["ls", "-l", "/proc/self/ns/"] Second],
        (0, some (GoError.errorsNew "mnt namespace not found"))) :=
  getNS_no_pattern _ "c"
    (ascii "lrwxrwxrwx 1 root root 0 Jul 28 16:39 pid -> pid:[4026532605]\nmnt:[]\n") []
    (by rfl) ((find_nil_iff _ _).mp (by decide))

/-- C2: the output `mnt:[9223372036854775808]` holds one occurrence of the pattern,
its digit group denotes `2^63`, which fits an unsigned 64-bit integer, and `getNS`
returns `2^63 - 1` together with the range error of `strconv.ParseInt`. -/
theorem getNS_rejects_two_pow_63 :
    FirstOccurrence (ascii "mnt") [] (ascii "9223372036854775808") (ascii "\n")
      (ascii "mnt:[9223372036854775808]\n") ∧
    decimalValue (ascii "9223372036854775808") = 2 ^ 63 ∧
    (getNS (fixedRuntime (.ok []) (.ok []) (.ok (ascii "mnt:[9223372036854775808]\n"))
        (.ok [])) "mnt" "c").2 =
      (9223372036854775807,
        some (GoError.numError "ParseInt" (ascii "9223372036854775808") NumErrKind.ErrRange)) := by
  refine ⟨⟨⟨by decide, by decide, by decide⟩, fun _ _ _ _ => Nat.zero_le _⟩, by decide, by decide⟩
/-! ## The pipeline -/

theorem getNS_calls (cli : RuntimeService) (ns containerid : String) :
    calls (getNS cli ns containerid).1 =
      [Event.execSync containerid ["ls", "-l", "/proc/self/ns/"] Second] := by
  simp only [getNS]
  split
  · simp [calls, Event.isCall]
  · split <;> simp [calls, Event.isCall]

theorem getEnv_calls (cli : RuntimeService) (containerid : String) :
    calls (getEnv cli containerid).1 = [Event.execSync containerid ["printenv"] Second] := by
  simp only [getEnv]
  split
  · simp [calls, Event.isCall]
  · split
    · simp [calls, Event.isCall]
    · split <;> simp [calls, Event.isCall]

/-- C3: when the runtime client is up and the ready-sandbox query for the request
succeeds with a list whose length is not one, `GetContainerInfoKube` returns no
`ContainerInfo` and the error `Invalid number of pods`; the run ends with the sandbox
query, so no container query, exec or PID lookup is made for any candidate. -/
theorem pods_cardinality_error (h : Host) (ka : KubeAttachment) (rs : RuntimeService)
    (resp : List PodSandbox)
    (hconn : h.NewRemoteRuntimeService ("unix://" ++ h.CriRuntime) defaultTimeout = .ok rs)
    (hlist : rs.ListPodSandbox (sandboxQuery ka) = .ok resp)
    (hlen : resp.length ≠ 1) :
    (GetContainerInfoKube h ka).2 =
      Outcome.returned (none, some (GoError.errorsNew "Invalid number of pods")) ∧
    calls (GetContainerInfoKube h ka).1 =
      [Event.newRemoteRuntimeService ("unix://" ++ h.CriRuntime) defaultTimeout,
        Event.listPodSandbox (sandboxQuery ka)] ∧
    (∀ f, Event.listContainers f ∉ (GetContainerInfoKube h ka).1) ∧
    (∀ id cmd t, Event.execSync id cmd t ∉ (GetContainerInfoKube h ka).1) ∧
    (∀ inod ns, Event.findPidsInNS inod ns ∉ (GetContainerInfoKube h ka).1) := by
  unfold sandboxQuery at hlist
  simp [GetContainerInfoKube, hconn, hlist, hlen, calls, Event.isCall, sandboxQuery]
theorem filter_of_uniqueRunning {respcont : List Container} {c : Container}
    (h : UniqueRunning respcont c) :
    respcont.filter (fun cont => decide (cont.State = ContainerState.CONTAINER_RUNNING)) = [c] := by
  obtain ⟨before, after, rfl, hc, hothers⟩ := h
  have hb : before.filter (fun cont => decide (cont.State = ContainerState.CONTAINER_RUNNING)) = [] := by
    rw [List.filter_eq_nil_iff]
    intro x hx
    simpa using hothers x (List.mem_append_left _ hx)
  have ha : after.filter (fun cont => decide (cont.State = ContainerState.CONTAINER_RUNNING)) = [] := by
    rw [List.filter_eq_nil_iff]
    intro x hx
    simpa using hothers x (List.mem_append_right _ hx)
  simp [List.filter_append, List.filter_cons, hb, ha, hc]

/-- C7: when the runtime client is up, the sandbox query returns exactly one sandbox,
the container query lists exactly one running container `c`, `getNS` returns the inode
`inod` without error for `c`, the PID locator returns `pids` for (`mnt`, `inod`) and
`getEnv` returns the map `m` without error for `c`, then `GetContainerInfoKube` returns
no error and the `ContainerInfo` with `Pids = pids`, `Name = <pod>.<namespace>` and
`Env = m`. -/
theorem all_stages_succeed (h : Host) (ka : KubeAttachment) (rs : RuntimeService)
    (pod : PodSandbox) (respcont : List Container) (c : Container)
    (inod : Nat) (pids : List Int) (m : GoMap)
    (hconn : h.NewRemoteRuntimeService ("unix://" ++ h.CriRuntime) defaultTimeout = .ok rs)
    (hlist : rs.ListPodSandbox (sandboxQuery ka) = .ok [pod])
    (hcont : rs.ListContainers (containerQuery ka pod) = .ok respcont)
    (hrun : UniqueRunning respcont c)
    (hns : (getNS rs "mnt" c.Id).2 = (inod, none))
    (hpid : h.FindPidsInNS inod "mnt" = .ok pids)
    (henv : (getEnv rs c.Id).2 = Outcome.returned (m, none)) :
    (GetContainerInfoKube h ka).2 =
      Outcome.returned
        (some { Pids := pids, Name := ka.Pod ++ "." ++ ka.Namespace, Env := m }, none) := by
  unfold sandboxQuery at hlist
  unfold containerQuery at hcont
  have hf := filter_of_uniqueRunning hrun
  have hns1 : (getNS rs "mnt" c.Id).2.1 = inod := by rw [hns]
  have hns2 : (getNS rs "mnt" c.Id).2.2 = none := by rw [hns]
  simp [GetContainerInfoKube, hconn, hlist, hcont, hf, hns1, hns2, hpid, henv]

/-- C9, as the code has it: when the sandbox, container, namespace-inode and
PID-locator stages all succeed and the `printenv` exec fails with `err`,
`GetContainerInfoKube` returns no `ContainerInfo` and the error `err`; the PIDs the
locator found are not returned. -/
theorem printenv_failure_aborts (h : Host) (ka : KubeAttachment) (rs : RuntimeService)
    (pod : PodSandbox) (respcont : List Container) (c : Container)
    (inod : Nat) (pids : List Int) (err : GoError)
    (hconn : h.NewRemoteRuntimeService ("unix://" ++ h.CriRuntime) defaultTimeout = .ok rs)
    (hlist : rs.ListPodSandbox (sandboxQuery ka) = .ok [pod])
    (hcont : rs.ListContainers (containerQuery ka pod) = .ok respcont)
    (hrun : UniqueRunning respcont c)
    (hns : (getNS rs "mnt" c.Id).2 = (inod, none))
    (hpid : h.FindPidsInNS inod "mnt" = .ok pids)
    (hexec : rs.ExecSync c.Id ["printenv"] Second = .error err) :
    (GetContainerInfoKube h ka).2 = Outcome.returned (none, some err) := by
  unfold sandboxQuery at hlist
  unfold containerQuery at hcont
  have hf := filter_of_uniqueRunning hrun
  have hns1 : (getNS rs "mnt" c.Id).2.1 = inod := by rw [hns]
  have hns2 : (getNS rs "mnt" c.Id).2.2 = none := by rw [hns]
  have henv : (getEnv rs c.Id).2 = Outcome.returned ([], some err) := by
    simp [getEnv, hexec]
  simp [GetContainerInfoKube, hconn, hlist, hcont, hf, hns1, hns2, hpid, henv]
theorem uniqueRunning_of_filter {respcont : List Container} {c : Container}
    (h : respcont.filter (fun cont => decide (cont.State = ContainerState.CONTAINER_RUNNING)) = [c]) :
    UniqueRunning respcont c := by
  induction respcont with
  | nil => simp at h
  | cons x xs ih =>
    by_cases hx : x.State = ContainerState.CONTAINER_RUNNING
    · simp only [List.filter_cons, hx, decide_True, if_true, List.cons.injEq] at h
      obtain ⟨rfl, hxs⟩ := h
      refine ⟨[], xs, rfl, hx, ?_⟩
      intro y hy
      rw [List.filter_eq_nil_iff] at hxs
      simpa using hxs y (by simpa using hy)
    · simp only [List.filter_cons, hx, decide_False] at h
      obtain ⟨before, after, rfl, hc, hothers⟩ := ih (by simpa using h)
      refine ⟨x :: before, after, rfl, hc, ?_⟩
      intro y hy
      simp only [List.cons_append, List.mem_cons] at hy
      rcases hy with rfl | hy
      · exact hx
      · exact hothers y hy

theorem calls_append (a b : List Event) : calls (a ++ b) = calls a ++ calls b := by
  simp [calls]

theorem calls_log (l : Level) (msg : String) (t : List Event) :
    calls (Event.log l msg :: t) = calls t := by
  simp [calls, Event.isCall]

theorem calls_call {ev : Event} (t : List Event) (h : ev.isCall = true) :
    calls (ev :: t) = ev :: calls t := by
  simp [calls, h]

theorem calls_nil : calls [] = [] := rfl

theorem mem_calls {ev : Event} {t : List Event} (h : ev.isCall = true) :
    ev ∈ t ↔ ev ∈ calls t := by
  simp [calls, h]
theorem run_cases (h : Host) (ka : KubeAttachment) :
    (∃ e, (GetContainerInfoKube h ka).2 = Outcome.returned (none, some e) ∧
      AbortsAt h ka e (calls (GetContainerInfoKube h ka).1)) ∨
    (∃ rs cid, ReachesEnvironment h ka rs cid (calls (GetContainerInfoKube h ka).1) ∧
      ((∃ info m, (GetContainerInfoKube h ka).2 = Outcome.returned (some info, none) ∧
          (getEnv rs cid).2 = Outcome.returned (m, none)) ∨
        (∃ msg, (GetContainerInfoKube h ka).2 = Outcome.panicked msg ∧
          (getEnv rs cid).2 = Outcome.panicked msg))) := by
  rcases hconn : h.NewRemoteRuntimeService ("unix://" ++ h.CriRuntime) defaultTimeout
    with e0 | rs
  · refine Or.inl ⟨e0, ?_, ?_⟩
    · simp [GetContainerInfoKube, hconn]
    · simp [GetContainerInfoKube, hconn, calls_call, calls_nil, Event.isCall]
      exact AbortsAt.client _ hconn
  · rcases hlist : rs.ListPodSandbox (sandboxQuery ka) with e1 | resp
    · have hlist2 := hlist
      unfold sandboxQuery at hlist2
      refine Or.inl ⟨e1, ?_, ?_⟩
      · simp [GetContainerInfoKube, hconn, hlist2]
      · simp [GetContainerInfoKube, hconn, hlist2, calls_call, calls_log, calls_nil,
          Event.isCall]
        exact AbortsAt.sandboxList rs _ hconn hlist
    · have hlist2 := hlist
      unfold sandboxQuery at hlist2
      rcases resp with _ | ⟨pod, _ | ⟨pod2, rest⟩⟩
      · refine Or.inl ⟨GoError.errorsNew "Invalid number of pods", ?_, ?_⟩
        · simp [GetContainerInfoKube, hconn, hlist2]
        · simp [GetContainerInfoKube, hconn, hlist2, calls_call, calls_log, calls_nil,
            Event.isCall]
          exact AbortsAt.sandboxCount rs [] hconn hlist (by simp)
      · rcases hcont : rs.ListContainers (containerQuery ka pod) with e2 | respcont
        · have hcont2 := hcont
          unfold containerQuery at hcont2
          refine Or.inl ⟨e2, ?_, ?_⟩
          · simp [GetContainerInfoKube, hconn, hlist2, hcont2]
          · simp [GetContainerInfoKube, hconn, hlist2, hcont2, calls_call, calls_log,
              calls_nil, Event.isCall]
            exact AbortsAt.containerList rs pod _ hconn hlist hcont
        · have hcont2 := hcont
          unfold containerQuery at hcont2
          rcases hf : respcont.filter
            (fun cont => decide (cont.State = ContainerState.CONTAINER_RUNNING))
            with _ | ⟨c, _ | ⟨c2, rest⟩⟩
          · refine Or.inl ⟨GoError.errorsNew "Invalid number of containers", ?_, ?_⟩
            · simp [GetContainerInfoKube, hconn, hlist2, hcont2, hf]
            · simp [GetContainerInfoKube, hconn, hlist2, hcont2, hf, calls_call, calls_log,
                calls_nil, Event.isCall]
              exact AbortsAt.containerCount rs pod respcont hconn hlist hcont
                (by rw [List.countP_eq_length_filter, hf]; simp)
          · have hrun := uniqueRunning_of_filter hf
            have hnc := getNS_calls rs "mnt" c.Id
            have hec := getEnv_calls rs c.Id
            rcases hns : getNS rs "mnt" c.Id with ⟨tns, inod, ens⟩
            rw [hns] at hnc
            simp only at hnc
            rcases ens with _ | e3
            · rcases hpid : h.FindPidsInNS inod "mnt" with e4 | pids
              · refine Or.inl ⟨e4, ?_, ?_⟩
                · simp [GetContainerInfoKube, hconn, hlist2, hcont2, hf, hns, hpid]
                · simp [GetContainerInfoKube, hconn, hlist2, hcont2, hf, hns, hpid, hnc,
                    calls_append, calls_call, calls_log, calls_nil, Event.isCall]
                  exact AbortsAt.pidLocator rs pod respcont c inod _ hconn hlist hcont hrun
                    (by rw [hns]) hpid
              · rcases henv : getEnv rs c.Id with ⟨tenv, oenv⟩
                rw [henv] at hec
                simp only at hec
                rcases oenv with ⟨m, _ | e5⟩ | msg
                · refine Or.inr ⟨rs, c.Id, ⟨pod, respcont, c, inod, pids, hconn, hlist, hcont,
                    hrun, rfl, by rw [hns], hpid, ?_⟩,
                    Or.inl ⟨{ Pids := pids, Name := ka.Pod ++ "." ++ ka.Namespace, Env := m },
                      m, ?_, by rw [henv]⟩⟩
                  · simp [GetContainerInfoKube, hconn, hlist2, hcont2, hf, hns, hpid, henv, hnc,
                      hec, calls_append, calls_call, calls_log, calls_nil, Event.isCall,
                      sandboxQuery, containerQuery]
                  · simp [GetContainerInfoKube, hconn, hlist2, hcont2, hf, hns, hpid, henv]
                · refine Or.inl ⟨e5, ?_, ?_⟩
                  · simp [GetContainerInfoKube, hconn, hlist2, hcont2, hf, hns, hpid, henv]
                  · simp [GetContainerInfoKube, hconn, hlist2, hcont2, hf, hns, hpid, henv, hnc,
                      hec, calls_append, calls_call, calls_log, calls_nil, Event.isCall]
                    exact AbortsAt.environment rs pod respcont c inod pids m _ hconn hlist
                      hcont hrun (by rw [hns]) hpid (by rw [henv])
                · refine Or.inr ⟨rs, c.Id, ⟨pod, respcont, c, inod, pids, hconn, hlist, hcont,
                    hrun, rfl, by rw [hns], hpid, ?_⟩, Or.inr ⟨msg, ?_, by rw [henv]⟩⟩
                  · simp [GetContainerInfoKube, hconn, hlist2, hcont2, hf, hns, hpid, henv, hnc,
                      hec, calls_append, calls_call, calls_log, calls_nil, Event.isCall,
                      sandboxQuery, containerQuery]
                  · simp [GetContainerInfoKube, hconn, hlist2, hcont2, hf, hns, hpid, henv]
            · refine Or.inl ⟨e3, ?_, ?_⟩
              · simp [GetContainerInfoKube, hconn, hlist2, hcont2, hf, hns]
              · simp [GetContainerInfoKube, hconn, hlist2, hcont2, hf, hns, hnc, calls_append,
                  calls_call, calls_log, calls_nil, Event.isCall]
                exact AbortsAt.namespaceInode rs pod respcont c _ hconn hlist hcont hrun
                  (by rw [hns])
          · refine Or.inl ⟨GoError.errorsNew "Invalid number of containers", ?_, ?_⟩
            · simp [GetContainerInfoKube, hconn, hlist2, hcont2, hf]
            · simp [GetContainerInfoKube, hconn, hlist2, hcont2, hf, calls_call, calls_log,
                calls_nil, Event.isCall]
              exact AbortsAt.containerCount rs pod respcont hconn hlist hcont
                (by rw [List.countP_eq_length_filter, hf]; simp)
      · refine Or.inl ⟨GoError.errorsNew "Invalid number of pods", ?_, ?_⟩
        · simp [GetContainerInfoKube, hconn, hlist2]
        · simp [GetContainerInfoKube, hconn, hlist2, calls_call, calls_log, calls_nil,
            Event.isCall]
          exact AbortsAt.sandboxCount rs _ hconn hlist (by simp)

theorem calls_without_unique_running (h : Host) (ka : KubeAttachment) (rs : RuntimeService)
    (pod : PodSandbox) (respcont : List Container)
    (hconn : h.NewRemoteRuntimeService ("unix://" ++ h.CriRuntime) defaultTimeout = .ok rs)
    (hlist : rs.ListPodSandbox (sandboxQuery ka) = .ok [pod])
    (hcont : rs.ListContainers (containerQuery ka pod) = .ok respcont)
    (hcount : respcont.countP (fun x => x.State = ContainerState.CONTAINER_RUNNING) ≠ 1) :
    (GetContainerInfoKube h ka).2 =
      Outcome.returned (none, some (GoError.errorsNew "Invalid number of containers")) ∧
    calls (GetContainerInfoKube h ka).1 =
      [Event.newRemoteRuntimeService ("unix://" ++ h.CriRuntime) defaultTimeout,
        Event.listPodSandbox (sandboxQuery ka),
        Event.listContainers (containerQuery ka pod)] := by
  unfold sandboxQuery at hlist
  unfold containerQuery at hcont
  rw [List.countP_eq_length_filter] at hcount
  simp [GetContainerInfoKube, hconn, hlist, hcont, hcount, calls_append, calls_call, calls_log,
    calls_nil, Event.isCall, sandboxQuery, containerQuery]

theorem calls_with_unique_running (h : Host) (ka : KubeAttachment) (rs : RuntimeService)
    (pod : PodSandbox) (respcont : List Container) (c : Container)
    (hconn : h.NewRemoteRuntimeService ("unix://" ++ h.CriRuntime) defaultTimeout = .ok rs)
    (hlist : rs.ListPodSandbox (sandboxQuery ka) = .ok [pod])
    (hcont : rs.ListContainers (containerQuery ka pod) = .ok respcont)
    (hrun : UniqueRunning respcont c) :
    ∃ more, calls (GetContainerInfoKube h ka).1 =
      [Event.newRemoteRuntimeService ("unix://" ++ h.CriRuntime) defaultTimeout,
        Event.listPodSandbox (sandboxQuery ka),
        Event.listContainers (containerQuery ka pod),
        Event.execSync c.Id ["ls", "-l", "/proc/self/ns/"] Second] ++ more ∧
      ∀ ev ∈ more, (∃ inod, ev = Event.findPidsInNS inod "mnt") ∨
        ev = Event.execSync c.Id ["printenv"] Second := by
  unfold sandboxQuery at hlist
  unfold containerQuery at hcont
  have hf := filter_of_uniqueRunning hrun
  have hnc := getNS_calls rs "mnt" c.Id
  have hec := getEnv_calls rs c.Id
  rcases hns : getNS rs "mnt" c.Id with ⟨tns, inod, ens⟩
  rw [hns] at hnc
  simp only at hnc
  rcases ens with _ | e3
  · rcases hpid : h.FindPidsInNS inod "mnt" with e4 | pids
    · refine ⟨[Event.findPidsInNS inod "mnt"], ?_, ?_⟩
      · simp [GetContainerInfoKube, hconn, hlist, hcont, hf, hns, hpid, hnc, calls_append,
          calls_call, calls_log, calls_nil, Event.isCall, sandboxQuery, containerQuery]
      · simp
    · rcases henv : getEnv rs c.Id with ⟨tenv, oenv⟩
      rw [henv] at hec
      simp only at hec
      refine ⟨[Event.findPidsInNS inod "mnt", Event.execSync c.Id ["printenv"] Second], ?_, ?_⟩
      · rcases oenv with ⟨m, _ | e5⟩ | msg <;>
          simp [GetContainerInfoKube, hconn, hlist, hcont, hf, hns, hpid, henv, hnc, hec,
            calls_append, calls_call, calls_log, calls_nil, Event.isCall, sandboxQuery,
            containerQuery]
      · simp
  · refine ⟨[], ?_, ?_⟩
    · simp [GetContainerInfoKube, hconn, hlist, hcont, hf, hns, hnc, calls_append,
        calls_call, calls_log, calls_nil, Event.isCall, sandboxQuery, containerQuery]
    · simp
/-- C4: with the runtime client up, exactly one sandbox resolved and the container
query answered with `respcont`, the pipeline goes on to exec in a container if and only
if exactly one listed container is running; otherwise it returns no `ContainerInfo` and
the error `Invalid number of containers`; and when `c` is the one running container,
wherever it stands in the list, the namespace exec is made in `c` and every exec of the
run is made in `c`. -/
theorem container_stage_unique_running (h : Host) (ka : KubeAttachment) (rs : RuntimeService)
    (pod : PodSandbox) (respcont : List Container)
    (hconn : h.NewRemoteRuntimeService ("unix://" ++ h.CriRuntime) defaultTimeout = .ok rs)
    (hlist : rs.ListPodSandbox (sandboxQuery ka) = .ok [pod])
    (hcont : rs.ListContainers (containerQuery ka pod) = .ok respcont) :
    ((∃ id cmd t, Event.execSync id cmd t ∈ (GetContainerInfoKube h ka).1) ↔
      respcont.countP (fun x => x.State = ContainerState.CONTAINER_RUNNING) = 1) ∧
    (respcont.countP (fun x => x.State = ContainerState.CONTAINER_RUNNING) ≠ 1 →
      (GetContainerInfoKube h ka).2 =
        Outcome.returned (none, some (GoError.errorsNew "Invalid number of containers"))) ∧
    (∀ c, UniqueRunning respcont c →
      Event.execSync c.Id ["ls", "-l", "/proc/self/ns/"] Second ∈ (GetContainerInfoKube h ka).1 ∧
      ∀ id cmd t, Event.execSync id cmd t ∈ (GetContainerInfoKube h ka).1 → id = c.Id) := by
  have key : ∀ c, UniqueRunning respcont c →
      Event.execSync c.Id ["ls", "-l", "/proc/self/ns/"] Second ∈ (GetContainerInfoKube h ka).1 ∧
      ∀ id cmd t, Event.execSync id cmd t ∈ (GetContainerInfoKube h ka).1 → id = c.Id := by
    intro c hrun
    obtain ⟨more, hcalls, hmore⟩ := calls_with_unique_running h ka rs pod respcont c hconn hlist
      hcont hrun
    constructor
    · rw [mem_calls (by rfl), hcalls]; simp
    · intro id cmd t hm
      rw [mem_calls (by rfl), hcalls] at hm
      simp only [List.cons_append, List.nil_append, List.mem_cons, reduceCtorEq, false_or,
        Event.execSync.injEq] at hm
      rcases hm with ⟨rfl, _, _⟩ | hm
      · rfl
      · rcases hmore _ hm with ⟨i, hi⟩ | hi
        · cases hi
        · cases hi; rfl
  refine ⟨⟨?_, ?_⟩, fun hcount => (calls_without_unique_running h ka rs pod respcont hconn hlist
    hcont hcount).1, key⟩
  · rintro ⟨id, cmd, t, hm⟩
    by_contra hcount
    have hc := (calls_without_unique_running h ka rs pod respcont hconn hlist hcont hcount).2
    rw [mem_calls (by rfl), hc] at hm
    simp at hm
  · intro hcount
    rw [List.countP_eq_length_filter] at hcount
    obtain ⟨c, hc⟩ := List.length_eq_one.mp hcount
    exact ⟨_, _, _, (key c (uniqueRunning_of_filter hc)).1⟩

theorem container_stage_unique_running_witness :
    Event.execSync "c1" ["ls", "-l", "/proc/self/ns/"] Second ∈
      (GetContainerInfoKube sampleHost sampleAttachment).1 :=
  ((container_stage_unique_running sampleHost sampleAttachment sampleRuntime sampleSandbox
    sampleContainers (by rfl) (by rfl) (by rfl)).2.2 sampleContainer
    ⟨[{ Id := "c0", State := ContainerState.CONTAINER_EXITED }],
      [{ Id := "c2", State := ContainerState.CONTAINER_CREATED }], rfl, rfl, by decide⟩).1

theorem pods_cardinality_error_witness :
    (GetContainerInfoKube twoSandboxHost sampleAttachment).2 =
      Outcome.returned (none, some (GoError.errorsNew "Invalid number of pods")) :=
  (pods_cardinality_error twoSandboxHost sampleAttachment
    (fixedRuntime (.ok [sampleSandbox, { Id := "sb-2", State := PodSandboxState.SANDBOX_READY }])
      (.ok sampleContainers) (.ok sampleLs) (.ok samplePrintenv))
    [sampleSandbox, { Id := "sb-2", State := PodSandboxState.SANDBOX_READY }]
    (by rfl) (by rfl) (by decide)).1

theorem all_stages_succeed_witness :
    (GetContainerInfoKube sampleHost sampleAttachment).2 =
      Outcome.returned
        (some { Pids := [4711, 4712], Name := "web-0" ++ "." ++ "default",
                Env := [(ascii "PAT", ascii "/bin"), (ascii "HOM", ascii "/root")] }, none) :=
  all_stages_succeed sampleHost sampleAttachment sampleRuntime sampleSandbox sampleContainers
    sampleContainer 4026532605 [4711, 4712]
    [(ascii "PAT", ascii "/bin"), (ascii "HOM", ascii "/root")]
    (by rfl) (by rfl) (by rfl)
    ⟨[{ Id := "c0", State := ContainerState.CONTAINER_EXITED }],
      [{ Id := "c2", State := ContainerState.CONTAINER_CREATED }], rfl, rfl, by decide⟩
    (by decide) (by rfl) (by decide)

theorem printenv_failure_aborts_witness :
    (GetContainerInfoKube envFailHost sampleAttachment).2 =
      Outcome.returned (none, some (GoError.external 1)) :=
  printenv_failure_aborts envFailHost sampleAttachment envFailRuntime sampleSandbox
    sampleContainers sampleContainer 4026532605 [4711, 4712] (GoError.external 1)
    (by rfl) (by rfl) (by rfl)
    ⟨[{ Id := "c0", State := ContainerState.CONTAINER_EXITED }],
      [{ Id := "c2", State := ContainerState.CONTAINER_CREATED }], rfl, rfl, by decide⟩
    (by decide) (by rfl) (by rfl)

/-- C9 fails as stated: on a host where the sandbox, container, namespace-inode and
PID-locator stages succeed (the locator is called for inode 4026532605 and answers
with two PIDs) and the `printenv` exec fails, `GetContainerInfoKube` returns no
`ContainerInfo`. -/
theorem printenv_failure_drops_pids :
    Event.findPidsInNS 4026532605 "mnt" ∈ (GetContainerInfoKube envFailHost sampleAttachment).1 ∧
    envFailHost.FindPidsInNS 4026532605 "mnt" = .ok [4711, 4712] ∧
    envFailRuntime.ExecSync "c1" ["printenv"] Second = .error (GoError.external 1) ∧
    (GetContainerInfoKube envFailHost sampleAttachment).2 =
      Outcome.returned (none, some (GoError.external 1)) := by
  refine ⟨by decide, by rfl, by rfl, by decide⟩
theorem result_of_abortsAt (h : Host) (ka : KubeAttachment) (e : GoError) (cs : List Event)
    (hab : AbortsAt h ka e cs) :
    (GetContainerInfoKube h ka).2 = Outcome.returned (none, some e) ∧
    calls (GetContainerInfoKube h ka).1 = cs := by
  cases hab with
  | client e hconn =>
    simp [GetContainerInfoKube, hconn, calls_call, calls_nil, Event.isCall]
  | sandboxList rs e hconn hlist =>
    unfold sandboxQuery at hlist
    simp [GetContainerInfoKube, hconn, hlist, calls_call, calls_log, calls_nil, Event.isCall,
      sandboxQuery]
  | sandboxCount rs resp hconn hlist hlen =>
    unfold sandboxQuery at hlist
    simp [GetContainerInfoKube, hconn, hlist, hlen, calls_call, calls_log, calls_nil,
      Event.isCall, sandboxQuery]
  | containerList rs pod e hconn hlist hcont =>
    unfold sandboxQuery at hlist
    unfold containerQuery at hcont
    simp [GetContainerInfoKube, hconn, hlist, hcont, calls_call, calls_log, calls_nil,
      Event.isCall, sandboxQuery, containerQuery]
  | containerCount rs pod respcont hconn hlist hcont hcount =>
    exact calls_without_unique_running h ka rs pod respcont hconn hlist hcont hcount
  | namespaceInode rs pod respcont c e hconn hlist hcont hrun hns =>
    unfold sandboxQuery at hlist
    unfold containerQuery at hcont
    have hf := filter_of_uniqueRunning hrun
    simp [GetContainerInfoKube, hconn, hlist, hcont, hf, hns, getNS_calls, calls_append,
      calls_call, calls_log, calls_nil, Event.isCall, sandboxQuery, containerQuery]
  | pidLocator rs pod respcont c inod e hconn hlist hcont hrun hns hpid =>
    unfold sandboxQuery at hlist
    unfold containerQuery at hcont
    have hf := filter_of_uniqueRunning hrun
    have hns1 : (getNS rs "mnt" c.Id).2.1 = inod := by rw [hns]
    have hns2 : (getNS rs "mnt" c.Id).2.2 = none := by rw [hns]
    simp [GetContainerInfoKube, hconn, hlist, hcont, hf, hns1, hns2, hpid, getNS_calls,
      calls_append, calls_call, calls_log, calls_nil, Event.isCall, sandboxQuery,
      containerQuery]
  | environment rs pod respcont c inod pids m e hconn hlist hcont hrun hns hpid henv =>
    unfold sandboxQuery at hlist
    unfold containerQuery at hcont
    have hf := filter_of_uniqueRunning hrun
    have hns1 : (getNS rs "mnt" c.Id).2.1 = inod := by rw [hns]
    have hns2 : (getNS rs "mnt" c.Id).2.2 = none := by rw [hns]
    simp [GetContainerInfoKube, hconn, hlist, hcont, hf, hns1, hns2, hpid, henv, getNS_calls,
      getEnv_calls, calls_append, calls_call, calls_log, calls_nil, Event.isCall,
      sandboxQuery, containerQuery]

theorem findPids_after_getNS (h : Host) (ka : KubeAttachment) (inod : Nat) (ns : String)
    (hmem : Event.findPidsInNS inod ns ∈ (GetContainerInfoKube h ka).1) :
    ns = "mnt" ∧ ∃ rs c,
      h.NewRemoteRuntimeService ("unix://" ++ h.CriRuntime) defaultTimeout = .ok rs ∧
      (getNS rs "mnt" c).2 = (inod, none) := by
  rw [mem_calls (by rfl)] at hmem
  rcases run_cases h ka with ⟨e, _, hab⟩ | ⟨rs, cid, hreach, _⟩
  · generalize calls (GetContainerInfoKube h ka).1 = cs at hab hmem
    cases hab with
    | client e hconn => simp at hmem
    | sandboxList rs e hconn hlist => simp at hmem
    | sandboxCount rs resp hconn hlist hlen => simp at hmem
    | containerList rs pod e hconn hlist hcont => simp at hmem
    | containerCount rs pod respcont hconn hlist hcont hcount => simp at hmem
    | namespaceInode rs pod respcont c e hconn hlist hcont hrun hns => simp at hmem
    | pidLocator rs pod respcont c i e hconn hlist hcont hrun hns hpid =>
      simp at hmem
      obtain ⟨rfl, rfl⟩ := hmem
      exact ⟨rfl, rs, c.Id, hconn, hns⟩
    | environment rs pod respcont c i pids m e hconn hlist hcont hrun hns hpid henv =>
      simp at hmem
      obtain ⟨rfl, rfl⟩ := hmem
      exact ⟨rfl, rs, c.Id, hconn, hns⟩
  · obtain ⟨pod, respcont, c, i, pids, hconn, hlist, hcont, hrun, hcid, hns, hpid, hcs⟩ := hreach
    rw [hcs] at hmem
    simp at hmem
    obtain ⟨rfl, rfl⟩ := hmem
    exact ⟨rfl, rs, c.Id, hconn, hns⟩

/-- C6: `GetContainerInfoKube` aborts at the first failing stage, in the order runtime
client, sandbox list, container list, namespace inode, PID locator, environment.
(1) When a stage fails with the error `e` after every earlier stage succeeded, the
result is no `ContainerInfo` together with exactly `e`, and the calls made are the ones
up to that stage's call, so no later stage is invoked.  (2) Conversely every error
return is such an abort: it carries no `ContainerInfo` and the error of the first
failing stage.  (3) In every run the PID locator is called only with kind `mnt` and an
inode that `getNS` returned without error.  (4) The only other way a run ends without
a result is a panic raised inside `getEnv`, at the environment stage, after every
earlier stage succeeded. -/
theorem abort_at_first_failing_stage (h : Host) (ka : KubeAttachment) :
    (∀ e cs, AbortsAt h ka e cs →
      (GetContainerInfoKube h ka).2 = Outcome.returned (none, some e) ∧
      calls (GetContainerInfoKube h ka).1 = cs) ∧
    (∀ info e, (GetContainerInfoKube h ka).2 = Outcome.returned (info, some e) →
      info = none ∧ AbortsAt h ka e (calls (GetContainerInfoKube h ka).1)) ∧
    (∀ inod ns, Event.findPidsInNS inod ns ∈ (GetContainerInfoKube h ka).1 →
      ns = "mnt" ∧ ∃ rs c,
        h.NewRemoteRuntimeService ("unix://" ++ h.CriRuntime) defaultTimeout = .ok rs ∧
        (getNS rs "mnt" c).2 = (inod, none)) ∧
    (∀ msg, (GetContainerInfoKube h ka).2 = Outcome.panicked msg →
      ∃ rs cid, ReachesEnvironment h ka rs cid (calls (GetContainerInfoKube h ka).1) ∧
        (getEnv rs cid).2 = Outcome.panicked msg) := by
  refine ⟨result_of_abortsAt h ka, ?_, findPids_after_getNS h ka, ?_⟩
  · intro info e hout
    rcases run_cases h ka with ⟨e2, hres, hab⟩ | ⟨rs, cid, _, ⟨i2, m, hres, _⟩ | ⟨msg, hres, _⟩⟩
    · rw [hres] at hout
      simp only [Outcome.returned.injEq, Prod.mk.injEq, Option.some.injEq] at hout
      obtain ⟨rfl, rfl⟩ := hout
      exact ⟨rfl, hab⟩
    · rw [hres] at hout
      simp at hout
    · rw [hres] at hout
      simp at hout
  · intro msg hout
    rcases run_cases h ka with ⟨e2, hres, hab⟩ | ⟨rs, cid, hreach, ⟨i2, m, hres, _⟩ | ⟨msg2, hres, henv⟩⟩
    · rw [hres] at hout
      simp at hout
    · rw [hres] at hout
      simp at hout
    · rw [hres] at hout
      simp only [Outcome.panicked.injEq] at hout
      subst hout
      exact ⟨rs, cid, hreach, henv⟩

theorem abort_at_first_failing_stage_witness :
    ((GetContainerInfoKube pidFailHost sampleAttachment).2 =
        Outcome.returned (none, some (GoError.external 2)) ∧
      calls (GetContainerInfoKube pidFailHost sampleAttachment).1 =
        [Event.newRemoteRuntimeService ("unix://" ++ pidFailHost.CriRuntime) defaultTimeout,
          Event.listPodSandbox (sandboxQuery sampleAttachment),
          Event.listContainers (containerQuery sampleAttachment sampleSandbox),
          Event.execSync sampleContainer.Id ["ls", "-l", "/proc/self/ns/"] Second,
          Event.findPidsInNS 4026532605 "mnt"]) ∧
    AbortsAt pidFailHost sampleAttachment (GoError.external 2)
      (calls (GetContainerInfoKube pidFailHost sampleAttachment).1) :=
  ⟨(abort_at_first_failing_stage pidFailHost sampleAttachment).1 _ _
      (AbortsAt.pidLocator sampleRuntime sampleSandbox sampleContainers sampleContainer
        4026532605 (GoError.external 2) (by rfl) (by rfl) (by rfl)
        ⟨[{ Id := "c0", State := ContainerState.CONTAINER_EXITED }],
          [{ Id := "c2", State := ContainerState.CONTAINER_CREATED }], rfl, rfl, by decide⟩
        (by decide) (by rfl)),
    ((abort_at_first_failing_stage pidFailHost sampleAttachment).2.1 none (GoError.external 2)
      (by decide)).2⟩
end Squash
